import Mathlib

/-!
Verification development for the satusehat-sdk TypeScript client.

The development shallowly embeds the two core components of the SDK:

* `OAuth` (src/auth/index.ts): the token lifecycle manager, holding an
  optional cached `TokenState` and refreshing it lazily with a 60-second
  expiry buffer.
* `FhirResourceBuilder` (src/resources/fhir): URL construction, request
  assembly for GET/POST/PUT/PATCH, and error normalization of non-2xx
  responses into either a `FhirOperationOutcomeError` or a generic error.
* `OrganizationService.byName` (src/resources/organization): a convenience
  search that performs its own fetch and error handling.

External JavaScript-runtime collaborators (`fetch`, `JSON.parse`,
`JSON.stringify`, `parseInt`, `encodeURIComponent`, `URLSearchParams`) are
embedded as explicit Lean functions with the runtime semantics the source
relies on; the network itself is an oracle: each embedded operation takes
the HTTP reply it would observe as an argument and returns the request it
would send and/or the state transition it performs.
-/

/-! ## JavaScript number model for `parseInt` results

`parseInt` returns NaN when no digits are found; NaN propagates through
arithmetic and makes every `<` comparison false.  `JsNum` captures exactly
the values that can flow into `TokenState.expiresAt`. -/

inductive JsNum where
  | nan : JsNum
  | int : Int → JsNum
deriving Repr, DecidableEq

def JsNum.addNum : JsNum → JsNum → JsNum
  | .int a, .int b => .int (a + b)
  | _, _ => .nan

def JsNum.mulInt : JsNum → Int → JsNum
  | .int a, k => .int (a * k)
  | .nan, _ => .nan

def JsNum.subInt : JsNum → Int → JsNum
  | .int a, k => .int (a - k)
  | .nan, _ => .nan

/-- `a < b` in JavaScript where `b` may be NaN: any comparison with NaN is
false. -/
def jsLtIntNum (a : Int) : JsNum → Bool
  | .nan => false
  | .int b => a < b

def isJsWs (c : Char) : Bool :=
  c = ' ' || c = '\t' || c = '\n' || c = '\r'

def dropLeadingWs : List Char → List Char
  | [] => []
  | c :: cs => if isJsWs c then dropLeadingWs cs else c :: cs

def digitsVal (ds : List Char) : Nat :=
  ds.foldl (fun a c => a * 10 + (c.toNat - '0'.toNat)) 0

/-- `parseInt(s, 10)`: skip leading whitespace, optional sign, then the
maximal run of decimal digits; NaN when that run is empty; trailing
garbage ignored. -/
def jsParseInt (s : String) : JsNum :=
  let cs := dropLeadingWs s.toList
  let core := fun (neg : Bool) (rest : List Char) =>
    let ds := rest.takeWhile Char.isDigit
    if ds.isEmpty then JsNum.nan
    else JsNum.int (if neg then -(digitsVal ds : Int) else (digitsVal ds : Int))
  match cs with
  | '-' :: rest => core true rest
  | '+' :: rest => core false rest
  | rest => core false rest

/-! ## OAuth token lifecycle (src/auth/index.ts) -/

/-- `TOKEN_EXPIRY_BUFFER`: seconds before expiry that trigger a refresh. -/
def TOKEN_EXPIRY_BUFFER : Int := 60

/-- The decoded body of a successful token-endpoint reply
(`TokenResponse` in src/auth/types.ts): all three fields are strings. -/
structure TokenResponse where
  access_token : String
  expires_in : String
  issued_at : String
deriving Repr, DecidableEq

/-- `TokenState`: cached token plus absolute expiry (epoch ms).  The expiry
is a JavaScript number: NaN when the server strings failed to parse. -/
structure TokenState where
  accessToken : String
  expiresAt : JsNum
deriving Repr, DecidableEq

/-- The `OAuth` class instance state. -/
structure OAuth where
  clientId : String
  clientSecret : String
  authUrl : String
  tokenState : Option TokenState
deriving Repr, DecidableEq

/-- `Response.ok` of the fetch API: status in 200..299. -/
def responseOk (status : Nat) : Bool :=
  200 ≤ status && status ≤ 299

/-- The reply the token endpoint oracle produces for one fetch:
the HTTP status, the raw body text (read on the error path), and the
decoded JSON body (the `as TokenResponse` cast, read on the success
path). -/
structure TokenReply where
  status : Nat
  bodyText : String
  tokenBody : TokenResponse
deriving Repr, DecidableEq

/-- `OAuth.fetchToken`: on non-2xx throw
`Failed to fetch access token: {status} {errorText}` leaving the state
untouched; on 2xx store a wholesale-new `TokenState` with
`expiresAt = parseInt(issued_at, 10) + parseInt(expires_in, 10) * 1000`. -/
def OAuth.fetchToken (s : OAuth) (reply : TokenReply) : Except String OAuth :=
  if responseOk reply.status then
    let expiresInMs := (jsParseInt reply.tokenBody.expires_in).mulInt 1000
    let issuedAt := jsParseInt reply.tokenBody.issued_at
    .ok { s with
          tokenState := some { accessToken := reply.tokenBody.access_token
                               expiresAt := issuedAt.addNum expiresInMs } }
  else
    .error ("Failed to fetch access token: " ++ toString reply.status ++ " "
            ++ reply.bodyText)

/-- `OAuth.isTokenValid`: false when no `TokenState`; otherwise
`now < expiresAt - TOKEN_EXPIRY_BUFFER * 1000`. -/
def OAuth.isTokenValid (s : OAuth) (now : Int) : Bool :=
  match s.tokenState with
  | none => false
  | some ts => jsLtIntNum now (ts.expiresAt.subInt (TOKEN_EXPIRY_BUFFER * 1000))

/-- The observable outcome of one `getAccessToken()` call: the returned
token (or thrown error message), the post-call instance state, and whether
the call performed a network fetch. -/
structure GetTokenOutcome where
  result : Except String String
  state : OAuth
  fetched : Bool
deriving Repr

/-- `OAuth.getAccessToken`: return the cached token without I/O when
`isTokenValid`, otherwise perform exactly one `fetchToken` and return the
freshly stored token (or propagate the fetch error). -/
def OAuth.getAccessToken (s : OAuth) (now : Int) (reply : TokenReply) :
    GetTokenOutcome :=
  match s.tokenState, s.isTokenValid now with
  | some ts, true => { result := .ok ts.accessToken, state := s, fetched := false }
  | _, _ =>
      match s.fetchToken reply with
      | .ok s2 =>
          { result := .ok (match s2.tokenState with
                           | some ts => ts.accessToken
                           | none => "")
            state := s2
            fetched := true }
      | .error e => { result := .error e, state := s, fetched := true }

/-- `OAuth.clearToken`: set `tokenState` to null. -/
def OAuth.clearToken (s : OAuth) : OAuth :=
  { s with tokenState := none }

/-! ## JSON values, `JSON.parse` and `JSON.stringify`

The source classifies non-2xx bodies by speculatively running `JSON.parse`
and serializes request bodies with `JSON.stringify`; both runtime
functions are embedded here.  Numbers are kept as their raw literal text
(the SDK never computes with a parsed JSON number). -/

inductive Json where
  | null : Json
  | bool : Bool → Json
  | num : String → Json
  | str : String → Json
  | arr : List Json → Json
  | obj : List (String × Json) → Json
deriving Repr

def hexDigitChar (n : Nat) : Char :=
  if n < 10 then Char.ofNat ('0'.toNat + n)
  else Char.ofNat ('A'.toNat + n - 10)

def hexVal (c : Char) : Option Nat :=
  if '0' ≤ c ∧ c ≤ '9' then some (c.toNat - '0'.toNat)
  else if 'a' ≤ c ∧ c ≤ 'f' then some (c.toNat - 'a'.toNat + 10)
  else if 'A' ≤ c ∧ c ≤ 'F' then some (c.toNat - 'A'.toNat + 10)
  else none

/-- Parse the remainder of a JSON string literal (the opening quote already
consumed), handling the escape sequences of the JSON grammar. -/
def parseStringChars : List Char → Option (String × List Char)
  | [] => none
  | '"' :: rest => some ("", rest)
  | '\\' :: '"' :: rest =>
      (parseStringChars rest).map (fun p => ("\"" ++ p.1, p.2))
  | '\\' :: '\\' :: rest =>
      (parseStringChars rest).map (fun p => ("\\" ++ p.1, p.2))
  | '\\' :: '/' :: rest =>
      (parseStringChars rest).map (fun p => ("/" ++ p.1, p.2))
  | '\\' :: 'b' :: rest =>
      (parseStringChars rest).map (fun p => ((Char.ofNat 8).toString ++ p.1, p.2))
  | '\\' :: 'f' :: rest =>
      (parseStringChars rest).map (fun p => ((Char.ofNat 12).toString ++ p.1, p.2))
  | '\\' :: 'n' :: rest =>
      (parseStringChars rest).map (fun p => ("\n" ++ p.1, p.2))
  | '\\' :: 'r' :: rest =>
      (parseStringChars rest).map (fun p => ("\r" ++ p.1, p.2))
  | '\\' :: 't' :: rest =>
      (parseStringChars rest).map (fun p => ("\t" ++ p.1, p.2))
  | '\\' :: 'u' :: h1 :: h2 :: h3 :: h4 :: rest =>
      match hexVal h1, hexVal h2, hexVal h3, hexVal h4 with
      | some a, some b, some c, some d =>
          (parseStringChars rest).map
            (fun p => ((Char.ofNat (((a * 16 + b) * 16 + c) * 16 + d)).toString
                        ++ p.1, p.2))
      | _, _, _, _ => none
  | '\\' :: _ => none
  | c :: rest =>
      if c.toNat < 0x20 then none
      else (parseStringChars rest).map (fun p => (c.toString ++ p.1, p.2))

/-- Parse a JSON number literal, returning its raw text. -/
def parseNumberToken (cs : List Char) : Option (String × List Char) :=
  let signAndRest :=
    match cs with
    | '-' :: rest => some ("-", rest)
    | rest => some ("", rest)
  match signAndRest with
  | some (sgn, rest) =>
      let intPart :=
        match rest with
        | '0' :: r => some ("0", r)
        | c :: r =>
            if c.isDigit ∧ c ≠ '0' then
              let ds := r.takeWhile Char.isDigit
              some (c.toString ++ String.mk ds, r.drop ds.length)
            else none
        | [] => none
      match intPart with
      | none => none
      | some (ip, r1) =>
          let fracPart :=
            match r1 with
            | '.' :: r =>
                let ds := r.takeWhile Char.isDigit
                if ds.isEmpty then none
                else some ("." ++ String.mk ds, r.drop ds.length)
            | _ => some ("", r1)
          match fracPart with
          | none => none
          | some (fp, r2) =>
              let expPart :=
                match r2 with
                | e :: r =>
                    if e = 'e' ∨ e = 'E' then
                      let signedDigits :=
                        match r with
                        | s :: r3 =>
                            if s = '+' ∨ s = '-' then (s.toString, r3)
                            else ("", r)
                        | [] => ("", r)
                      let ds := signedDigits.2.takeWhile Char.isDigit
                      if ds.isEmpty then none
                      else some (e.toString ++ signedDigits.1 ++ String.mk ds,
                                 signedDigits.2.drop ds.length)
                    else some ("", r2)
                | [] => some ("", r2)
              match expPart with
              | none => none
              | some (ep, r3) => some (sgn ++ ip ++ fp ++ ep, r3)
  | none => none

mutual

/-- Parse one JSON value after skipping leading whitespace. -/
def parseJsonValue : Nat → List Char → Option (Json × List Char)
  | 0, _ => none
  | fuel + 1, cs =>
      match dropLeadingWs cs with
      | 'n' :: 'u' :: 'l' :: 'l' :: rest => some (.null, rest)
      | 't' :: 'r' :: 'u' :: 'e' :: rest => some (.bool true, rest)
      | 'f' :: 'a' :: 'l' :: 's' :: 'e' :: rest => some (.bool false, rest)
      | '"' :: rest =>
          match parseStringChars rest with
          | some (s, r) => some (.str s, r)
          | none => none
      | '[' :: rest =>
          match dropLeadingWs rest with
          | ']' :: r => some (.arr [], r)
          | r =>
              match parseJsonItems fuel r with
              | some (xs, r2) => some (.arr xs, r2)
              | none => none
      | '\x7b' :: rest =>
          match dropLeadingWs rest with
          | '\x7d' :: r => some (.obj [], r)
          | r =>
              match parseJsonMembers fuel r with
              | some (fs, r2) => some (.obj fs, r2)
              | none => none
      | cs' =>
          match parseNumberToken cs' with
          | some (raw, r) => some (.num raw, r)
          | none => none

/-- Parse the comma-separated elements of a JSON array up to the closing
bracket. -/
def parseJsonItems : Nat → List Char → Option (List Json × List Char)
  | 0, _ => none
  | fuel + 1, cs =>
      match parseJsonValue fuel cs with
      | none => none
      | some (v, r) =>
          match dropLeadingWs r with
          | ',' :: r2 =>
              match parseJsonItems fuel r2 with
              | some (xs, r3) => some (v :: xs, r3)
              | none => none
          | ']' :: r2 => some ([v], r2)
          | _ => none

/-- Parse the comma-separated members of a JSON object up to the closing
brace. -/
def parseJsonMembers : Nat → List Char → Option (List (String × Json) × List Char)
  | 0, _ => none
  | fuel + 1, cs =>
      match dropLeadingWs cs with
      | '"' :: r =>
          match parseStringChars r with
          | none => none
          | some (k, r1) =>
              match dropLeadingWs r1 with
              | ':' :: r2 =>
                  match parseJsonValue fuel r2 with
                  | none => none
                  | some (v, r3) =>
                      match dropLeadingWs r3 with
                      | ',' :: r4 =>
                          match parseJsonMembers fuel r4 with
                          | some (fs, r5) => some ((k, v) :: fs, r5)
                          | none => none
                      | '\x7d' :: r4 => some ([(k, v)], r4)
                      | _ => none
              | _ => none
      | _ => none

end

/-- `JSON.parse`: parse the whole text as a single JSON value; `none`
models a thrown `SyntaxError`. -/
def Json.parse (s : String) : Option Json :=
  let cs := s.toList
  match parseJsonValue (2 * cs.length + 8) cs with
  | some (v, rest) => if (dropLeadingWs rest).isEmpty then some v else none
  | none => none

/-- Property access on a parsed JSON value: `undefined` (none) unless the
value is an object with that key; with duplicate keys `JSON.parse` keeps
the last occurrence. -/
def jsonField : Json → String → Option Json
  | .obj fields, k =>
      (fields.reverse.find? (fun f => f.1 = k)).map Prod.snd
  | _, _ => none

def escapeJsonChar (c : Char) : String :=
  if c = '"' then "\\\""
  else if c = '\\' then "\\\\"
  else if c = '\n' then "\\n"
  else if c = '\r' then "\\r"
  else if c = '\t' then "\\t"
  else if c = Char.ofNat 8 then "\\b"
  else if c = Char.ofNat 12 then "\\f"
  else if c.toNat < 0x20 then
    "\\u00" ++ (hexDigitChar (c.toNat / 16)).toString.toLower
      ++ (hexDigitChar (c.toNat % 16)).toString.toLower
  else c.toString

def escapeJsonString (s : String) : String :=
  String.join (s.toList.map escapeJsonChar)

mutual

/-- `JSON.stringify` (no indentation). -/
def Json.stringify : Json → String
  | .null => "null"
  | .bool true => "true"
  | .bool false => "false"
  | .num raw => raw
  | .str s => "\"" ++ escapeJsonString s ++ "\""
  | .arr xs => "[" ++ stringifyItems xs ++ "]"
  | .obj fs => "\x7b" ++ stringifyMembers fs ++ "\x7d"

def stringifyItems : List Json → String
  | [] => ""
  | [x] => Json.stringify x
  | x :: xs => Json.stringify x ++ "," ++ stringifyItems xs

def stringifyMembers : List (String × Json) → String
  | [] => ""
  | [(k, v)] => "\"" ++ escapeJsonString k ++ "\":" ++ Json.stringify v
  | (k, v) :: fs =>
      "\"" ++ escapeJsonString k ++ "\":" ++ Json.stringify v ++ ","
        ++ stringifyMembers fs

end

/-! ## URL encoding (`encodeURIComponent`, `URLSearchParams`) -/

/-- The UTF-8 encoding of one code point, as byte values. -/
def utf8Bytes (c : Char) : List Nat :=
  let n := c.toNat
  if n < 0x80 then [n]
  else if n < 0x800 then [0xC0 + n / 64, 0x80 + n % 64]
  else if n < 0x10000 then
    [0xE0 + n / 4096, 0x80 + (n / 64) % 64, 0x80 + n % 64]
  else
    [0xF0 + n / 262144, 0x80 + (n / 4096) % 64, 0x80 + (n / 64) % 64,
     0x80 + n % 64]

def stringUtf8 (s : String) : List Nat :=
  s.toList.flatMap utf8Bytes

def percentByte (n : Nat) : String :=
  "%" ++ (hexDigitChar (n / 16)).toString ++ (hexDigitChar (n % 16)).toString

def isAlnumByte (n : Nat) : Bool :=
  (48 ≤ n && n ≤ 57) || (65 ≤ n && n ≤ 90) || (97 ≤ n && n ≤ 122)

/-- Bytes `encodeURIComponent` leaves unescaped: alphanumerics and
`- _ . ! ~ * ' ( )`. -/
def uriUnreservedByte (n : Nat) : Bool :=
  isAlnumByte n || n = 45 || n = 95 || n = 46 || n = 33 || n = 126 || n = 42
    || n = 39 || n = 40 || n = 41

def encodeURIComponent (s : String) : String :=
  String.join ((stringUtf8 s).map (fun n =>
    if uriUnreservedByte n then (Char.ofNat n).toString else percentByte n))

/-- Bytes the `application/x-www-form-urlencoded` serializer (used by
`URLSearchParams.toString`) leaves unescaped: alphanumerics and `* - . _`;
a space becomes `+`. -/
def formUnreservedByte (n : Nat) : Bool :=
  isAlnumByte n || n = 42 || n = 45 || n = 46 || n = 95

def formEncode (s : String) : String :=
  String.join ((stringUtf8 s).map (fun n =>
    if formUnreservedByte n then (Char.ofNat n).toString
    else if n = 32 then "+"
    else percentByte n))

/-! ## FhirResourceBuilder (src/resources/fhir) -/

/-- One value of the `queryParams` record:
`string | string[] | number | boolean`. -/
inductive QueryValue where
  | str : String → QueryValue
  | strs : List String → QueryValue
  | num : Int → QueryValue
  | bool : Bool → QueryValue
deriving Repr

/-- `String(value)` for a scalar query value, and the element list for an
array value (each element appended separately). -/
def QueryValue.toStrings : QueryValue → List String
  | .str s => [s]
  | .strs xs => xs
  | .num n => [toString n]
  | .bool true => ["true"]
  | .bool false => ["false"]

/-- The (name, value) pairs appended to the `URLSearchParams`, in
insertion order. -/
def searchParamPairs (qp : List (String × QueryValue)) : List (String × String) :=
  qp.flatMap (fun kv => kv.2.toStrings.map (fun v => (kv.1, v)))

/-- `URLSearchParams.toString()`: form-encoded `k=v` pairs joined by `&`. -/
def serializeSearchParams (qp : List (String × QueryValue)) : String :=
  String.intercalate "&"
    ((searchParamPairs qp).map (fun kv => formEncode kv.1 ++ "=" ++ formEncode kv.2))

/-- A `FhirResourceBuilder` instance: its only fields besides the shared
`OAuth` reference are the base URL and the resource type string. -/
structure FhirResourceBuilder where
  baseUrl : String
  resourceType : String
deriving Repr, DecidableEq

/-- `FhirResourceBuilder.buildUrl`.  `pathParams` is appended only when
truthy (a present, nonempty string); the query string is appended only
when `queryParams` is present with at least one key. -/
def FhirResourceBuilder.buildUrl (b : FhirResourceBuilder)
    (pathParams : Option String)
    (queryParams : Option (List (String × QueryValue))) : String :=
  let url := b.baseUrl ++ "/" ++ b.resourceType
  let url :=
    match pathParams with
    | some p => if p = "" then url else url ++ "/" ++ encodeURIComponent p
    | none => url
  match queryParams with
  | some qp =>
      if qp.length > 0 then url ++ "?" ++ serializeSearchParams qp else url
  | none => url

/-- The error thrown for a non-2xx resource response: either a
`FhirOperationOutcomeError` (carrying the parsed payload and the HTTP
status) or a plain `Error` (carrying only a message). -/
inductive FhirError where
  | outcome : Json → Nat → FhirError
  | generic : String → FhirError
deriving Repr

/-- The message of the plain `Error` thrown by `handleErrorResponse`:
`FHIR {method} {resourceType} gagal: {status} {text}`. -/
def fhirGenericMessage (method resourceType : String) (status : Nat)
    (text : String) : String :=
  "FHIR " ++ method ++ " " ++ resourceType ++ " gagal: " ++ toString status
    ++ " " ++ text

/-- `FhirResourceBuilder.handleErrorResponse`: read the body text, try
`JSON.parse`; when it yields a value whose `resourceType` is the string
`"OperationOutcome"`, throw `FhirOperationOutcomeError(json, status)`
(thrown inside the `try`, re-thrown by the `catch`); in every other case
(parse failure, or any other parsed value) fall through to the plain
`Error`. -/
def FhirResourceBuilder.handleErrorResponse (b : FhirResourceBuilder)
    (method : String) (status : Nat) (text : String) : FhirError :=
  match Json.parse text with
  | some j =>
      match jsonField j "resourceType" with
      | some (.str s) =>
          if s = "OperationOutcome" then .outcome j status
          else .generic (fhirGenericMessage method b.resourceType status text)
      | _ => .generic (fhirGenericMessage method b.resourceType status text)
  | none => .generic (fhirGenericMessage method b.resourceType status text)

/-- The shared response step of `get`/`post`/`put`/`patch`: a 2xx response
returns the body for JSON decoding; any other status throws
`handleErrorResponse`. -/
def FhirResourceBuilder.handleResponse (b : FhirResourceBuilder)
    (method : String) (status : Nat) (text : String) : Except FhirError String :=
  if responseOk status then .ok text
  else .error (b.handleErrorResponse method status text)

/-- An HTTP request as handed to `fetch`. -/
structure HttpRequest where
  method : String
  url : String
  headers : List (String × String)
  body : Option String
deriving Repr, DecidableEq

/-- The request issued by `FhirResourceBuilder.get` once `token` has been
obtained from `oauth.getAccessToken()`. -/
def FhirResourceBuilder.getRequest (b : FhirResourceBuilder) (token : String)
    (pathParams : Option String)
    (queryParams : Option (List (String × QueryValue))) : HttpRequest :=
  { method := "GET"
    url := b.buildUrl pathParams queryParams
    headers := [("Authorization", "Bearer " ++ token),
                ("Content-Type", "application/json")]
    body := none }

/-- The request issued by `FhirResourceBuilder.post`: the body is
`JSON.stringify(body)`. -/
def FhirResourceBuilder.postRequest (b : FhirResourceBuilder) (token : String)
    (body : Json) : HttpRequest :=
  { method := "POST"
    url := b.buildUrl none none
    headers := [("Authorization", "Bearer " ++ token),
                ("Content-Type", "application/json")]
    body := some (Json.stringify body) }

/-- The request issued by `FhirResourceBuilder.put`: id-qualified URL,
body `JSON.stringify(body)`. -/
def FhirResourceBuilder.putRequest (b : FhirResourceBuilder) (token : String)
    (id : String) (body : Json) : HttpRequest :=
  { method := "PUT"
    url := b.buildUrl (some id) none
    headers := [("Authorization", "Bearer " ++ token),
                ("Content-Type", "application/json")]
    body := some (Json.stringify body) }

/-- The `op` field of a JSON Patch operation. -/
inductive PatchOpKind where
  | add | remove | replace | move | copy | test
deriving Repr, DecidableEq

def PatchOpKind.render : PatchOpKind → String
  | .add => "add"
  | .remove => "remove"
  | .replace => "replace"
  | .move => "move"
  | .copy => "copy"
  | .test => "test"

/-- One JSON Patch operation `{ op, path, value? }`. -/
structure PatchOp where
  op : PatchOpKind
  path : String
  value : Option Json
deriving Repr

/-- The JSON value `JSON.stringify` sees for one patch operation: the
`value` key is absent when the field is `undefined`. -/
def PatchOp.toJson (p : PatchOp) : Json :=
  Json.obj ([("op", .str p.op.render), ("path", .str p.path)]
    ++ (match p.value with
        | some v => [("value", v)]
        | none => []))

def patchOpsToJson (ops : List PatchOp) : Json :=
  Json.arr (ops.map PatchOp.toJson)

/-- The request issued by `FhirResourceBuilder.patch`: id-qualified URL,
content type `application/json-patch+json`, body
`JSON.stringify(operations)`. -/
def FhirResourceBuilder.patchRequest (b : FhirResourceBuilder) (token : String)
    (id : String) (ops : List PatchOp) : HttpRequest :=
  { method := "PATCH"
    url := b.buildUrl (some id) none
    headers := [("Authorization", "Bearer " ++ token),
                ("Content-Type", "application/json-patch+json")]
    body := some (Json.stringify (patchOpsToJson ops)) }

/-- `put(params, body)` executed twice in sequence against the same
builder.  The builder has no mutable fields, so both calls see the same
instance; the pair collects the two requests issued. -/
def FhirResourceBuilder.putTwice (b : FhirResourceBuilder) (token : String)
    (id : String) (body : Json) : HttpRequest × HttpRequest :=
  (b.putRequest token id body, b.putRequest token id body)

/-! ## FhirOperationOutcomeError message (src/resources/fhir/types.ts) -/

/-- The `details` CodeableConcept of an issue, as far as the constructor
reads it: only the optional `text`. -/
structure IssueDetails where
  text : Option String
deriving Repr, DecidableEq

/-- One entry of `OperationOutcome.issue` as read by the constructor. -/
structure OperationOutcomeIssue where
  severity : Option String
  diagnostics : Option String
  details : Option IssueDetails
deriving Repr, DecidableEq

/-- The decoded `OperationOutcome` payload: `issue` may itself be absent. -/
structure OperationOutcome where
  issue : Option (List OperationOutcomeIssue)
deriving Repr, DecidableEq

/-- `issue?.[0]`: undefined when `issue` is absent or empty. -/
def OperationOutcome.firstIssue (oo : OperationOutcome) :
    Option OperationOutcomeIssue :=
  oo.issue.bind List.head?

/-- The message computed by the `FhirOperationOutcomeError` constructor:
`issue?.[0]?.diagnostics ?? issue?.[0]?.details?.text ??
'FHIR OperationOutcome error'`. -/
def fhirOperationOutcomeMessage (oo : OperationOutcome) : String :=
  match oo.firstIssue.bind OperationOutcomeIssue.diagnostics with
  | some m => m
  | none =>
      match (oo.firstIssue.bind OperationOutcomeIssue.details).bind
              IssueDetails.text with
      | some m => m
      | none => "FHIR OperationOutcome error"

/-! ## OrganizationService (src/resources/organization) -/

/-- The `OrganizationService` instance: `resourceType` is fixed to
`"Organization"` by the constructor. -/
structure OrganizationService where
  baseUrl : String
  resourceType : String
deriving Repr, DecidableEq

def OrganizationService.make (baseUrl : String) : OrganizationService :=
  { baseUrl := baseUrl, resourceType := "Organization" }

/-- The request issued by `OrganizationService.byName` once the token is
obtained: a bare GET with only the Authorization header. -/
def OrganizationService.byNameRequest (s : OrganizationService)
    (token : String) (name : String) : HttpRequest :=
  { method := "GET"
    url := s.baseUrl ++ "/" ++ s.resourceType ++ "?name=" ++ encodeURIComponent name
    headers := [("Authorization", "Bearer " ++ token)]
    body := none }

/-- `OrganizationService.byName` response handling: a 2xx response returns
the body for JSON decoding; any other status throws a plain `Error` with
message `Failed to search {resourceType}: {status} {errorText}` — the
body is never inspected for an OperationOutcome shape. -/
def OrganizationService.byNameResponse (s : OrganizationService)
    (status : Nat) (text : String) : Except FhirError String :=
  if responseOk status then .ok text
  else .error (.generic ("Failed to search " ++ s.resourceType ++ ": "
                          ++ toString status ++ " " ++ text))

/-! ## Theorems -/

/-- C1: `getAccessToken()` returns the cached token without a fetch exactly
when a `TokenState` is present and `now < expiresAt - 60 * 1000`; with the
state absent or `now ≥ expiresAt - 60 * 1000` it performs a fetch.  In
particular `expiresAt = now + 61000` gives no fetch and
`expiresAt = now + 59000` gives a fetch. -/
theorem getAccessToken_buffer_spec (s : OAuth) (now : Int) (tok : String)
    (e : Int) (reply : TokenReply) :
    (s.tokenState = some { accessToken := tok, expiresAt := .int e } →
      now < e - 60 * 1000 →
      s.getAccessToken now reply
        = { result := .ok tok, state := s, fetched := false }) ∧
    (s.tokenState = none → (s.getAccessToken now reply).fetched = true) ∧
    (s.tokenState = some { accessToken := tok, expiresAt := .int e } →
      e - 60 * 1000 ≤ now →
      (s.getAccessToken now reply).fetched = true) ∧
    (OAuth.getAccessToken
        { s with tokenState := some { accessToken := tok, expiresAt := .int (now + 61000) } }
        now reply).fetched = false ∧
    (OAuth.getAccessToken
        { s with tokenState := some { accessToken := tok, expiresAt := .int (now + 59000) } }
        now reply).fetched = true := by
  refine ⟨?_, ?_, ?_, ?_, ?_⟩
  · intro h1 h2
    have hv : s.isTokenValid now = true := by
      simp [OAuth.isTokenValid, h1, JsNum.subInt, jsLtIntNum, TOKEN_EXPIRY_BUFFER]
      omega
    simp [OAuth.getAccessToken, h1, hv]
  · intro h1
    have hv : s.isTokenValid now = false := by
      simp [OAuth.isTokenValid, h1]
    rcases hf : s.fetchToken reply with s2 | e2 <;>
      simp [OAuth.getAccessToken, h1, hv, hf]
  · intro h1 h2
    have hv : s.isTokenValid now = false := by
      simp [OAuth.isTokenValid, h1, JsNum.subInt, jsLtIntNum, TOKEN_EXPIRY_BUFFER]
      omega
    rcases hf : s.fetchToken reply with s2 | e2 <;>
      simp [OAuth.getAccessToken, h1, hv, hf]
  · have hv : OAuth.isTokenValid
        { s with tokenState := some { accessToken := tok, expiresAt := .int (now + 61000) } }
        now = true := by
      simp [OAuth.isTokenValid, JsNum.subInt, jsLtIntNum, TOKEN_EXPIRY_BUFFER]
      omega
    simp [OAuth.getAccessToken, hv]
  · have hv : OAuth.isTokenValid
        { s with tokenState := some { accessToken := tok, expiresAt := .int (now + 59000) } }
        now = false := by
      simp [OAuth.isTokenValid, JsNum.subInt, jsLtIntNum, TOKEN_EXPIRY_BUFFER]
    rcases hf : OAuth.fetchToken
        { s with tokenState := some { accessToken := tok, expiresAt := .int (now + 59000) } }
        reply with s2 | e2 <;>
      simp [OAuth.getAccessToken, hv, hf]

/-- C1 witness: the theorem applied to a concrete instance at
`now = 1000000` with `expiresAt = 1061000` (cached, no fetch). -/
theorem getAccessToken_buffer_spec_witness :
    OAuth.getAccessToken
        { clientId := "c", clientSecret := "x", authUrl := "https://a"
          tokenState := some { accessToken := "tok", expiresAt := .int 1061000 } }
        1000000
        { status := 200, bodyText := ""
          tokenBody := { access_token := "n", expires_in := "3600", issued_at := "1" } }
      = { result := .ok "tok"
          state := { clientId := "c", clientSecret := "x", authUrl := "https://a"
                     tokenState := some { accessToken := "tok", expiresAt := .int 1061000 } }
          fetched := false } :=
  (getAccessToken_buffer_spec
      { clientId := "c", clientSecret := "x", authUrl := "https://a"
        tokenState := some { accessToken := "tok", expiresAt := .int 1061000 } }
      1000000 "tok" 1061000
      { status := 200, bodyText := ""
        tokenBody := { access_token := "n", expires_in := "3600", issued_at := "1" } }).1
    rfl (by decide)

/-- C2: for every non-2xx resource response, the shared error step of all
four operations throws `FhirOperationOutcomeError(json, status)` exactly
when the body parses as JSON with `resourceType = "OperationOutcome"`, and
otherwise throws the generic `Error` whose message carries the method, the
resource type, the status and the raw body; no non-2xx status returns
normally. -/
theorem handleResponse_error_classification (b : FhirResourceBuilder)
    (method : String) (status : Nat) (text : String) (j : Json)
    (hst : responseOk status = false) :
    (Json.parse text = some j →
      jsonField j "resourceType" = some (.str "OperationOutcome") →
      b.handleResponse method status text = .error (.outcome j status)) ∧
    (Json.parse text = some j →
      jsonField j "resourceType" ≠ some (.str "OperationOutcome") →
      b.handleResponse method status text
        = .error (.generic (fhirGenericMessage method b.resourceType status text))) ∧
    (Json.parse text = none →
      b.handleResponse method status text
        = .error (.generic (fhirGenericMessage method b.resourceType status text))) ∧
    (∀ res : String, b.handleResponse method status text ≠ .ok res) := by
  refine ⟨?_, ?_, ?_, ?_⟩
  · intro hp hf
    simp [FhirResourceBuilder.handleResponse, hst,
          FhirResourceBuilder.handleErrorResponse, hp, hf]
  · intro hp hf
    rcases hr : jsonField j "resourceType" with _ | jv
    · simp [FhirResourceBuilder.handleResponse, hst,
            FhirResourceBuilder.handleErrorResponse, hp, hr]
    · rcases jv with _ | bv | nv | sv | av | ov <;>
        simp [FhirResourceBuilder.handleResponse, hst,
              FhirResourceBuilder.handleErrorResponse, hp, hr] <;>
        intro hcontra <;> exact hf (by rw [hr, hcontra])
  · intro hp
    simp [FhirResourceBuilder.handleResponse, hst,
          FhirResourceBuilder.handleErrorResponse, hp]
  · intro res
    simp [FhirResourceBuilder.handleResponse, hst]

/-- C2 witness: the theorem applied at a 404 whose body is an
OperationOutcome payload (structured error) and at a 500 whose body is not
JSON (generic error). -/
theorem handleResponse_error_classification_witness :
    FhirResourceBuilder.handleResponse
        { baseUrl := "https://x/fhir", resourceType := "Patient" }
        "GET" 404
        "\x7b\"resourceType\":\"OperationOutcome\",\"issue\":[\x7b\"severity\":\"error\",\"diagnostics\":\"not found\"\x7d]\x7d"
      = .error (.outcome
          (Json.obj
            [("resourceType", Json.str "OperationOutcome"),
             ("issue", Json.arr
               [Json.obj [("severity", Json.str "error"),
                          ("diagnostics", Json.str "not found")]])])
          404) ∧
    FhirResourceBuilder.handleResponse
        { baseUrl := "https://x/fhir", resourceType := "Patient" }
        "GET" 500 "internal error"
      = .error (.generic "FHIR GET Patient gagal: 500 internal error") :=
  ⟨(handleResponse_error_classification
      { baseUrl := "https://x/fhir", resourceType := "Patient" }
      "GET" 404
      "\x7b\"resourceType\":\"OperationOutcome\",\"issue\":[\x7b\"severity\":\"error\",\"diagnostics\":\"not found\"\x7d]\x7d"
      (Json.obj
        [("resourceType", Json.str "OperationOutcome"),
         ("issue", Json.arr
           [Json.obj [("severity", Json.str "error"),
                      ("diagnostics", Json.str "not found")]])])
      rfl).1 rfl rfl,
   (handleResponse_error_classification
      { baseUrl := "https://x/fhir", resourceType := "Patient" }
      "GET" 500 "internal error" Json.null rfl).2.2.1 rfl⟩

/-- C3 counterexample: the claim's "suffixed ... exactly when ... supplied"
biconditional fails.  Supplying the empty query mapping `{}` adds no query
string (the code guards on at least one key), and supplying the path id
`""` adds no path segment (the code guards on string truthiness): both
calls produce the same URL as supplying nothing at all. -/
theorem buildUrl_suffix_counterexample :
    FhirResourceBuilder.buildUrl
        { baseUrl := "https://x/fhir", resourceType := "Patient" } none (some [])
      = "https://x/fhir/Patient" ∧
    FhirResourceBuilder.buildUrl
        { baseUrl := "https://x/fhir", resourceType := "Patient" } (some "") none
      = "https://x/fhir/Patient" ∧
    FhirResourceBuilder.buildUrl
        { baseUrl := "https://x/fhir", resourceType := "Patient" } none none
      = "https://x/fhir/Patient" :=
  ⟨rfl, rfl, rfl⟩

/-- C3 amended: the target URL is `{baseUrl}/{resourceType}`, suffixed with
`/{encodeURIComponent(id)}` exactly when a nonempty path id is supplied and
with `?{query}` exactly when a query mapping with at least one key is
supplied; list values serialize as repeated occurrences of the parameter
name in order.  Concretely, `read(id="123")` on `Patient` at
`https://x/fhir` yields `https://x/fhir/Patient/123` and
`read(queryParams={name:"John", tag:["a","b"]})` yields
`https://x/fhir/Patient?name=John&amp;tag=a&amp;tag=b`. -/
theorem buildUrl_spec (b : FhirResourceBuilder) (pp : Option String)
    (qp : Option (List (String × QueryValue))) :
    b.buildUrl pp qp =
      b.baseUrl ++ "/" ++ b.resourceType
        ++ (match pp with
            | some p => if p = "" then "" else "/" ++ encodeURIComponent p
            | none => "")
        ++ (match qp with
            | some l => if 0 < l.length then "?" ++ serializeSearchParams l else ""
            | none => "")
    ∧ FhirResourceBuilder.buildUrl
          { baseUrl := "https://x/fhir", resourceType := "Patient" }
          (some "123") none
        = "https://x/fhir/Patient/123"
    ∧ FhirResourceBuilder.buildUrl
          { baseUrl := "https://x/fhir", resourceType := "Patient" }
          none (some [("name", .str "John"), ("tag", .strs ["a", "b"])])
        = "https://x/fhir/Patient?name=John&tag=a&tag=b" := by
  refine ⟨?_, rfl, rfl⟩
  rcases pp with _ | p <;> rcases qp with _ | l
  · simp [FhirResourceBuilder.buildUrl]
  · by_cases hl : 0 < l.length <;>
      simp [FhirResourceBuilder.buildUrl, hl, String.append_assoc]
  · by_cases hp : p = "" <;>
      simp [FhirResourceBuilder.buildUrl, hp, String.append_assoc]
  · by_cases hp : p = "" <;> by_cases hl : 0 < l.length <;>
      simp [FhirResourceBuilder.buildUrl, hp, hl, String.append_assoc]

/-- C4: a successful token fetch whose body carries `access_token`,
`expires_in` (decimal seconds string, parsing to `eN`) and `issued_at`
(decimal epoch-ms string, parsing to `iN`) replaces the `TokenState`
wholesale by `{ accessToken := access_token, expiresAt := iN + eN * 1000 }`
and `getAccessToken()` returns exactly the new token. -/
theorem getAccessToken_fetch_success (s : OAuth) (now : Int)
    (reply : TokenReply) (tok ei ia : String) (eN iN : Int)
    (hbody : reply.tokenBody = { access_token := tok, expires_in := ei, issued_at := ia })
    (hok : responseOk reply.status = true)
    (hei : jsParseInt ei = .int eN) (hia : jsParseInt ia = .int iN)
    (hinv : s.isTokenValid now = false) :
    s.getAccessToken now reply =
      { result := .ok tok
        state := { s with tokenState := some { accessToken := tok
                                               expiresAt := .int (iN + eN * 1000) } }
        fetched := true } := by
  have hf : s.fetchToken reply =
      .ok { s with tokenState := some { accessToken := tok
                                        expiresAt := .int (iN + eN * 1000) } } := by
    simp [OAuth.fetchToken, hok, hbody, hei, hia, JsNum.mulInt, JsNum.addNum]
  rcases hts : s.tokenState with _ | ts
  · simp [OAuth.getAccessToken, hts, hf]
  · simp [OAuth.getAccessToken, hts, hinv, hf]

/-- C4 witness: the theorem applied to a concrete expired state and a 200
reply with `expires_in = "3600"`, `issued_at = "1000000"`. -/
theorem getAccessToken_fetch_success_witness :
    OAuth.getAccessToken
        { clientId := "c", clientSecret := "x", authUrl := "https://a"
          tokenState := none }
        1000000
        { status := 200, bodyText := ""
          tokenBody := { access_token := "newtok", expires_in := "3600"
                         issued_at := "1000000" } }
      = { result := .ok "newtok"
          state := { clientId := "c", clientSecret := "x", authUrl := "https://a"
                     tokenState := some { accessToken := "newtok"
                                          expiresAt := .int 4600000 } }
          fetched := true } :=
  getAccessToken_fetch_success
    { clientId := "c", clientSecret := "x", authUrl := "https://a"
      tokenState := none }
    1000000
    { status := 200, bodyText := ""
      tokenBody := { access_token := "newtok", expires_in := "3600"
                     issued_at := "1000000" } }
    "newtok" "3600" "1000000" 3600 1000000 rfl rfl (by decide) (by decide) rfl

/-- C5: a non-2xx token-endpoint reply makes `getAccessToken()` throw the
error `Failed to fetch access token: {status} {body}` — carrying the HTTP
status and the raw body — after exactly one fetch attempt (the model
consumes a single oracle reply, so the failure is not retried), and the
cached `tokenState` and every other field are left unchanged
(`state = s`). -/
theorem getAccessToken_auth_error (s : OAuth) (now : Int) (reply : TokenReply)
    (hst : responseOk reply.status = false)
    (hinv : s.isTokenValid now = false) :
    s.getAccessToken now reply =
      { result := .error ("Failed to fetch access token: "
                            ++ toString reply.status ++ " " ++ reply.bodyText)
        state := s
        fetched := true } := by
  have hf : s.fetchToken reply =
      .error ("Failed to fetch access token: " ++ toString reply.status ++ " "
              ++ reply.bodyText) := by
    simp [OAuth.fetchToken, hst]
  rcases hts : s.tokenState with _ | ts
  · simp [OAuth.getAccessToken, hts, hf]
  · simp [OAuth.getAccessToken, hts, hinv, hf]

/-- C5 witness: the theorem applied to a concrete empty state and a 401
reply with body `invalid_client`. -/
theorem getAccessToken_auth_error_witness :
    OAuth.getAccessToken
        { clientId := "c", clientSecret := "x", authUrl := "https://a"
          tokenState := none }
        1000000
        { status := 401, bodyText := "invalid_client"
          tokenBody := { access_token := "", expires_in := "", issued_at := "" } }
      = { result := .error "Failed to fetch access token: 401 invalid_client"
          state := { clientId := "c", clientSecret := "x", authUrl := "https://a"
                     tokenState := none }
          fetched := true } :=
  getAccessToken_auth_error
    { clientId := "c", clientSecret := "x", authUrl := "https://a"
      tokenState := none }
    1000000
    { status := 401, bodyText := "invalid_client"
      tokenBody := { access_token := "", expires_in := "", issued_at := "" } }
    (by decide) rfl

/-- C6: `clearToken()` sets the `TokenState` to absent and changes no other
field (`clientId`, `clientSecret`, `authUrl` are untouched); it is a pure
state update with no oracle interaction; and after it, the next
`getAccessToken()` call performs a fetch for every prior state, time and
reply. -/
theorem clearToken_spec (s : OAuth) (now : Int) (reply : TokenReply) :
    (s.clearToken).tokenState = none ∧
    (s.clearToken).clientId = s.clientId ∧
    (s.clearToken).clientSecret = s.clientSecret ∧
    (s.clearToken).authUrl = s.authUrl ∧
    ((s.clearToken).getAccessToken now reply).fetched = true := by
  refine ⟨rfl, rfl, rfl, rfl, ?_⟩
  rcases hf : (s.clearToken).fetchToken reply with s2 | e2 <;>
    simp [OAuth.getAccessToken, OAuth.clearToken, OAuth.isTokenValid, hf] <;>
    simp [OAuth.clearToken] at hf <;> simp [hf]

/-- C7: the message of a `FhirOperationOutcomeError` built from a decoded
payload is the first issue's `diagnostics` when present, else the first
issue's `details.text` when present, else the fixed fallback
`FHIR OperationOutcome error`; the fallback also covers a missing or empty
`issue` list. -/
theorem fhirOperationOutcomeMessage_spec (oo : OperationOutcome)
    (i : OperationOutcomeIssue) (rest : List OperationOutcomeIssue) :
    (∀ d, oo.issue = some (i :: rest) → i.diagnostics = some d →
        fhirOperationOutcomeMessage oo = d) ∧
    (∀ t, oo.issue = some (i :: rest) → i.diagnostics = none →
        i.details = some { text := some t } →
        fhirOperationOutcomeMessage oo = t) ∧
    (oo.issue = some (i :: rest) → i.diagnostics = none →
        (i.details = none ∨ i.details = some { text := none }) →
        fhirOperationOutcomeMessage oo = "FHIR OperationOutcome error") ∧
    (oo.issue = none →
        fhirOperationOutcomeMessage oo = "FHIR OperationOutcome error") ∧
    (oo.issue = some [] →
        fhirOperationOutcomeMessage oo = "FHIR OperationOutcome error") := by
  refine ⟨?_, ?_, ?_, ?_, ?_⟩
  · intro d h1 h2
    simp [fhirOperationOutcomeMessage, OperationOutcome.firstIssue, h1, h2]
  · intro t h1 h2 h3
    simp [fhirOperationOutcomeMessage, OperationOutcome.firstIssue, h1, h2, h3]
  · intro h1 h2 h3
    rcases h3 with h3 | h3 <;>
      simp [fhirOperationOutcomeMessage, OperationOutcome.firstIssue, h1, h2, h3]
  · intro h1
    simp [fhirOperationOutcomeMessage, OperationOutcome.firstIssue, h1]
  · intro h1
    simp [fhirOperationOutcomeMessage, OperationOutcome.firstIssue, h1]

/-- C7 witness: the theorem applied to payloads exercising the
diagnostics, the details-text and the empty-issue branches. -/
theorem fhirOperationOutcomeMessage_spec_witness :
    fhirOperationOutcomeMessage
        { issue := some [{ severity := some "error", diagnostics := some "not found"
                           details := none }] }
      = "not found" ∧
    fhirOperationOutcomeMessage
        { issue := some [{ severity := some "error", diagnostics := none
                           details := some { text := some "bad ref" } }] }
      = "bad ref" ∧
    fhirOperationOutcomeMessage { issue := some [] }
      = "FHIR OperationOutcome error" :=
  ⟨(fhirOperationOutcomeMessage_spec
      { issue := some [{ severity := some "error", diagnostics := some "not found"
                         details := none }] }
      { severity := some "error", diagnostics := some "not found", details := none }
      []).1 "not found" rfl rfl,
   (fhirOperationOutcomeMessage_spec
      { issue := some [{ severity := some "error", diagnostics := none
                         details := some { text := some "bad ref" } }] }
      { severity := some "error", diagnostics := none
        details := some { text := some "bad ref" } }
      []).2.1 "bad ref" rfl rfl rfl,
   (fhirOperationOutcomeMessage_spec { issue := some [] }
      { severity := none, diagnostics := none, details := none }
      []).2.2.2.2 rfl⟩

/-- C8: with `token` the value the token manager returned, every one of
the four requests carries `Authorization: Bearer {token}`; GET, POST and
PUT send `Content-Type: application/json`, while PATCH sends
`Content-Type: application/json-patch+json` with body
`JSON.stringify(operations)` (the ordered operation sequence). -/
theorem request_headers_spec (b : FhirResourceBuilder) (s : OAuth) (now : Int)
    (reply : TokenReply) (token : String) (pp : Option String)
    (qp : Option (List (String × QueryValue))) (id : String) (body : Json)
    (ops : List PatchOp)
    (htok : (s.getAccessToken now reply).result = .ok token) :
    (b.getRequest token pp qp).headers
      = [("Authorization", "Bearer " ++ token),
         ("Content-Type", "application/json")] ∧
    (b.postRequest token body).headers
      = [("Authorization", "Bearer " ++ token),
         ("Content-Type", "application/json")] ∧
    (b.putRequest token id body).headers
      = [("Authorization", "Bearer " ++ token),
         ("Content-Type", "application/json")] ∧
    (b.patchRequest token id ops).headers
      = [("Authorization", "Bearer " ++ token),
         ("Content-Type", "application/json-patch+json")] ∧
    (b.patchRequest token id ops).body
      = some (Json.stringify (patchOpsToJson ops)) :=
  ⟨rfl, rfl, rfl, rfl, rfl⟩

/-- C8 witness: the theorem applied with a cached valid token state that
yields token `tok`, and a one-element JSON Patch sequence. -/
theorem request_headers_spec_witness :
    (FhirResourceBuilder.patchRequest
        { baseUrl := "https://x/fhir", resourceType := "Patient" } "tok" "123"
        [{ op := .replace, path := "/name/0/text", value := some (.str "New") }]).headers
      = [("Authorization", "Bearer tok"),
         ("Content-Type", "application/json-patch+json")] ∧
    (FhirResourceBuilder.patchRequest
        { baseUrl := "https://x/fhir", resourceType := "Patient" } "tok" "123"
        [{ op := .replace, path := "/name/0/text", value := some (.str "New") }]).body
      = some "[\x7b\"op\":\"replace\",\"path\":\"/name/0/text\",\"value\":\"New\"\x7d]" :=
  ⟨((request_headers_spec
      { baseUrl := "https://x/fhir", resourceType := "Patient" }
      { clientId := "c", clientSecret := "x", authUrl := "https://a"
        tokenState := some { accessToken := "tok", expiresAt := .int 1061000 } }
      1000000
      { status := 200, bodyText := ""
        tokenBody := { access_token := "", expires_in := "", issued_at := "" } }
      "tok" none none "123" Json.null
      [{ op := .replace, path := "/name/0/text", value := some (.str "New") }]
      rfl).2.2.2.1),
   ((request_headers_spec
      { baseUrl := "https://x/fhir", resourceType := "Patient" }
      { clientId := "c", clientSecret := "x", authUrl := "https://a"
        tokenState := some { accessToken := "tok", expiresAt := .int 1061000 } }
      1000000
      { status := 200, bodyText := ""
        tokenBody := { access_token := "", expires_in := "", issued_at := "" } }
      "tok" none none "123" Json.null
      [{ op := .replace, path := "/name/0/text", value := some (.str "New") }]
      rfl).2.2.2.2)⟩

/-- C9: `put(id, body)` executed twice with identical arguments issues two
requests with identical URL and identical serialized payload; the builder
holds no mutable state, so nothing changes between the calls. -/
theorem putTwice_identical (b : FhirResourceBuilder) (token id : String)
    (body : Json) :
    (b.putTwice token id body).1.url = (b.putTwice token id body).2.url ∧
    (b.putTwice token id body).1.body = (b.putTwice token id body).2.body ∧
    (b.putTwice token id body).1 = (b.putTwice token id body).2 :=
  ⟨rfl, rfl, rfl⟩

/-- C10: every non-2xx reply to `OrganizationService.byName` throws the
plain `Error` with message
`Failed to search Organization: {status} {body}` and never a
`FhirOperationOutcomeError`, whatever the body — the method bypasses the
builder's error-normalization path. -/
theorem byName_error_generic (baseUrl : String) (status : Nat) (text : String)
    (hst : responseOk status = false) :
    (OrganizationService.make baseUrl).byNameResponse status text
      = .error (.generic ("Failed to search Organization: "
                            ++ toString status ++ " " ++ text)) ∧
    (∀ (j : Json) (st : Nat),
      (OrganizationService.make baseUrl).byNameResponse status text
        ≠ .error (.outcome j st)) := by
  constructor
  · simp [OrganizationService.byNameResponse, OrganizationService.make, hst]
  · intro j st
    simp [OrganizationService.byNameResponse, OrganizationService.make, hst]

/-- C10 witness: the theorem applied at a 404 whose body is a well-formed
OperationOutcome payload: the result is still the plain generic error. -/
theorem byName_error_generic_witness :
    (OrganizationService.make "https://x/fhir").byNameResponse 404
        "\x7b\"resourceType\":\"OperationOutcome\",\"issue\":[\x7b\"severity\":\"error\",\"diagnostics\":\"not found\"\x7d]\x7d"
      = .error (.generic
          "Failed to search Organization: 404 \x7b\"resourceType\":\"OperationOutcome\",\"issue\":[\x7b\"severity\":\"error\",\"diagnostics\":\"not found\"\x7d]\x7d") :=
  (byName_error_generic "https://x/fhir" 404
    "\x7b\"resourceType\":\"OperationOutcome\",\"issue\":[\x7b\"severity\":\"error\",\"diagnostics\":\"not found\"\x7d]\x7d"
    (by decide)).1
